import Mathlib

/-!
Verification development for the price-lookup pipeline of the import service
(backend/app/tasks.py, backend/app/services/allegro_scraper.py,
backend/app/main.py, backend/app/config.py, backend/app/models.py).

The Python code is shallowly embedded: each task body becomes a pure Lean
function of its database snapshot and of the responses of its external
collaborators (the antibot subprocess, the Selenium-driven page
classification).  Timestamps and prices are integers (only their ordering
and equality matter), profit margins are exact rationals, Python
dictionaries are association lists over a small value type.
-/

set_option linter.unusedVariables false

/-- Product states, the string values `"pending"`, `"queued"`, `"processing"`,
`"done"`, `"not_found"`, `"error"` of `ProductInput.status`
(backend/app/models.py, backend/app/tasks.py). -/
inductive ProductStatus where
  | pending
  | queued
  | processing
  | done
  | notFound
  | error
deriving DecidableEq, Repr

/-- Job states, the string values of `ImportJob.status`. -/
inductive JobStatus where
  | pending
  | queued
  | processing
  | done
  | error
deriving DecidableEq, Repr

/-- `ACTIVE_STATUSES = {"pending", "queued", "processing"}` (tasks.py line 78). -/
def ACTIVE_STATUSES : List ProductStatus :=
  [ProductStatus.pending, ProductStatus.queued, ProductStatus.processing]

/-- The mutable part of an `ImportJob` row touched by finalization. -/
structure JobRecord where
  status : JobStatus
  notes : Option String
deriving DecidableEq, Repr

/-- `finalize_job_if_complete` (tasks.py lines 82-146) as a function of the
job row and of the multiset of statuses of the products owned by the job.
`remaining` counts products in `ACTIVE_STATUSES`; if any remain the job row
is left untouched.  Otherwise the job status and notes are recomputed from
the total / error / not-found counts exactly as in the source. -/
def finalize_job_if_complete (products : List ProductStatus) (job : JobRecord) :
    JobRecord :=
  let remaining := (products.filter (fun s => s ∈ ACTIVE_STATUSES)).length
  if remaining ≠ 0 then job
  else
    let total_products := products.length
    let error_count := (products.filter (fun s => s = ProductStatus.error)).length
    let not_found_count := (products.filter (fun s => s = ProductStatus.notFound)).length
    if total_products = 0 then
      { status := JobStatus.error, notes := some "Brak produktów po przetwarzaniu." }
    else if error_count ≠ 0 ∧ error_count = total_products then
      { status := JobStatus.error, notes := some "Wszystkie produkty zakończyły się błędem." }
    else
      { status := JobStatus.done
        notes :=
          if error_count ≠ 0 then
            some ("Zakończono z błędami: " ++ toString error_count ++ "/" ++
              toString total_products ++ ".")
          else if not_found_count ≠ 0 ∧ not_found_count = total_products then
            some "Żaden produkt nie został znaleziony na Allegro."
          else if not_found_count ≠ 0 then
            some ("Zakończono. Nie znaleziono: " ++ toString not_found_count ++ "/" ++
              toString total_products ++ ".")
          else none }

/-- A job status is terminal when it is `done` or `error`. -/
def JobStatus.isTerminal : JobStatus → Bool
  | JobStatus.done => true
  | JobStatus.error => true
  | _ => false

/-! ## Python values and dictionaries

`fetch_with_antibot` (tasks.py lines 229-295) returns a Python dict whose
values are primitives parsed from the subprocess output.  We model those
values with `PyVal` and dicts with insertion-ordered association lists.
ISO-format timestamp strings are modelled by their numeric value (an integer
number of time units), so `datetime.fromisoformat` succeeds exactly on
`PyVal.num` values. -/

/-- A primitive Python value appearing in the antibot result dicts. -/
inductive PyVal where
  | none
  | bool (b : Bool)
  | num (n : ℤ)
  | str (s : String)
deriving DecidableEq, Repr

/-- Python truthiness for `PyVal` (`None`, `False`, `0` and `""` are falsy). -/
def PyVal.truthy : PyVal → Bool
  | PyVal.none => false
  | PyVal.bool b => b
  | PyVal.num n => n ≠ 0
  | PyVal.str s => s ≠ ""

/-- An insertion-ordered Python dict with string keys. -/
abbrev PyDict : Type := List (String × PyVal)

/-- `d.get(k, default)`: the first binding of `k`, or the default. -/
def PyDict.getD (d : PyDict) (k : String) (v : PyVal) : PyVal :=
  match List.lookup k d with
  | some w => w
  | Option.none => v

/-- `d.get(k)` with the implicit `None` default. -/
def PyDict.get (d : PyDict) (k : String) : PyVal :=
  PyDict.getD d k PyVal.none

/-- `k in d`. -/
def PyDict.hasKey (d : PyDict) (k : String) : Bool :=
  (List.lookup k d).isSome

/-- `d.setdefault(k, v)`: keep an existing binding, else append `(k, v)`. -/
def PyDict.setdefault (d : PyDict) (k : String) (v : PyVal) : PyDict :=
  if PyDict.hasKey d k then d else d ++ [(k, v)]

/-! ## fetch_with_antibot (tasks.py lines 229-295)

The subprocess interaction is the environment: either `Popen` raises
(`FileNotFoundError` or some other exception), or the binary runs and
produces a list of output lines.  `ast.literal_eval` of a payload string is
an oracle `parse`; a successful parse yields either a Python dict
(`ParsedVal.pydict`) or a non-dict value, of which only its truthiness
matters (a truthy non-dict makes the later `.setdefault` calls raise
`AttributeError`, caught by the outer `except`; a falsy parse falls through
to the no-detail branch). -/

/-- Result of `ast.literal_eval` on a `Product detail: ` payload. -/
inductive ParsedVal where
  | pydict (entries : PyDict)
  | truthyNonDict
  | falsyNonDict
deriving DecidableEq, Repr

/-- Outcome of `subprocess.Popen(["/usr/local/bin/antibot", ean], ...)`. -/
inductive SubprocOutcome where
  | fileNotFound
  | raised (msg : String)
  | ran (lines : List String)
deriving DecidableEq, Repr

/-- The scan loop of `fetch_with_antibot` (tasks.py lines 248-264): strip each
line, skip blanks, and on a line containing `Product detail: ` try to parse
the text after the first occurrence of the marker; the loop breaks at the
first successful parse and otherwise keeps scanning. -/
def findProductDetail (parse : String → Option ParsedVal) :
    List String → Option ParsedVal
  | [] => Option.none
  | l :: ls =>
    let line := l.trim
    if line = "" then findProductDetail parse ls
    else
      match (line.splitOn "Product detail: ").get? 1 with
      | Option.none => findProductDetail parse ls
      | some payload =>
        match parse payload.trim with
        | some v => some v
        | Option.none => findProductDetail parse ls

/-- The dict built by tasks.py lines 280-288 when the process produced no
parseable `Product detail: ` line. -/
def antibotNoDetailDict (ean : String) (now : ℤ) : PyDict :=
  [("ean", PyVal.str ean),
   ("allegro_lowest_price", PyVal.none),
   ("sold_count", PyVal.none),
   ("last_checked_at", PyVal.num now),
   ("source", PyVal.str "antibot_exe"),
   ("not_found", PyVal.bool true),
   ("error", PyVal.str "No Product detail line in output")]

/-- The dict built by the `except` branches of tasks.py lines 290-295. -/
def antibotExceptDict (ean : String) (now : ℤ) (msg : String) : PyDict :=
  [("ean", PyVal.str ean),
   ("source", PyVal.str "antibot_error"),
   ("not_found", PyVal.bool true),
   ("error", PyVal.str msg),
   ("last_checked_at", PyVal.num now)]

/-- `fetch_with_antibot` (tasks.py lines 229-295).  `sub` is the subprocess
outcome, `parse` the `ast.literal_eval` oracle and `now` the value of
`datetime.now(timezone.utc)`.  Every branch of the source returns a dict;
exceptions never propagate. -/
def fetch_with_antibot (ean : String) (sub : SubprocOutcome)
    (parse : String → Option ParsedVal) (now : ℤ) : PyDict :=
  match sub with
  | SubprocOutcome.fileNotFound => antibotExceptDict ean now "antibot.exe not found"
  | SubprocOutcome.raised msg => antibotExceptDict ean now msg
  | SubprocOutcome.ran lines =>
    match findProductDetail parse lines with
    | some (ParsedVal.pydict detail) =>
      if detail ≠ [] then
        ((((detail.setdefault "not_found" (PyVal.bool false)).setdefault
            "source" (PyVal.str "antibot_exe")).setdefault
            "last_checked_at" (PyVal.num now)).setdefault
            "allegro_lowest_price" PyVal.none).setdefault
            "sold_count" PyVal.none
      else antibotNoDetailDict ean now
    | some ParsedVal.truthyNonDict =>
      antibotExceptDict ean now "AttributeError: setdefault"
    | some ParsedVal.falsyNonDict => antibotNoDetailDict ean now
    | Option.none => antibotNoDetailDict ean now

/-! ## The fetch_allegro_data task (tasks.py lines 419-530)

The task is a function of the cache row for the EAN, the current time, and
the raw dict returned by `fetch_with_antibot`.  The product row is read and
overwritten unconditionally: the source never consults the current product
status, so it is an (unused) argument, kept to make that explicit.  Product
`notes`, the transient `processing` write at line 465 and the
`send_scraper_alert` guard at lines 505-514 are recorded where relevant;
`diagnostics` style fields that no claim touches are elided. -/

/-- `CACHE_TTL_DAYS = int(os.getenv("CACHE_TTL_DAYS", 30))` (config.py
line 25); the TTL is configurable, 30 days by default. -/
def CACHE_TTL_DAYS_DEFAULT : ℤ := 30

/-- An `AllegroCache` row (models.py lines 41-50). -/
structure CacheEntry where
  lowest_price : Option ℤ
  sold_count : Option ℤ
  source : String
  fetched_at : ℤ
  not_found : Bool
deriving DecidableEq, Repr

/-- `INVALID_CACHE_SOURCES = ["failed", "error", "ban_detected",
"captcha_detected", "antibot_error"]` (tasks.py line 450). -/
def INVALID_CACHE_SOURCES : List String :=
  ["failed", "error", "ban_detected", "captcha_detected", "antibot_error"]

/-- The `result` dict assembled in tasks.py lines 474-488 from the raw
antibot dict. -/
structure TaskResult where
  lowest_price : Option ℤ
  sold_count : Option ℤ
  source : String
  fetched_at : ℤ
  not_found : PyVal
  error : PyVal
  alert_sent : Bool
deriving DecidableEq, Repr

/-- Numeric extraction for values stored into `Float` columns. -/
def PyVal.asNum : PyVal → Option ℤ
  | PyVal.num n => some n
  | _ => Option.none

/-- Lines 474-488 of tasks.py: `datetime.fromisoformat` succeeds exactly on
our numeric timestamp encoding, with `now` as the fallback; `source`
defaults to `"antibot_exe"` when the key is absent (a non-string source
would be rejected by the string column, so it is collapsed to the same
default). -/
def mapAntibotResult (raw : PyDict) (now : ℤ) : TaskResult :=
  { lowest_price := PyVal.asNum (raw.get "allegro_lowest_price")
    sold_count := PyVal.asNum (raw.get "sold_count")
    source :=
      match raw.getD "source" (PyVal.str "antibot_exe") with
      | PyVal.str s => s
      | _ => "antibot_exe"
    fetched_at :=
      match raw.get "last_checked_at" with
      | PyVal.num t => t
      | _ => now
    not_found := raw.getD "not_found" (PyVal.bool false)
    error := raw.get "error"
    alert_sent := false }

/-- What one invocation of the task did to the database. -/
structure TaskOutcome where
  status : ProductStatus
  cache : Option CacheEntry
  fetched : Bool
  alerted : Bool
deriving DecidableEq, Repr

/-- `fetch_allegro_data` (tasks.py lines 419-530) on the happy control path
(the product row exists and no exception escapes).  `ttlDays` is the
configured `CACHE_TTL_DAYS`, `now` the value of `datetime.utcnow()`,
`pstatus` the current product status (never read by the source), `cache`
the `AllegroCache` row for the EAN and `raw` the dict returned by
`fetch_with_antibot`.  Lines 443-463: a cache row younger than the TTL
whose source is not in `INVALID_CACHE_SOURCES` resolves the product from
cache without a lookup.  Otherwise lines 465-529 run the lookup, map the
result to a status (`error` wins over `not_found`, else `done`) and
overwrite (or create) the cache row.  The cache guard of lines 446-451 is
split out as `cacheUsable`: the row must be younger than
`datetime.utcnow() - timedelta(days=CACHE_TTL_DAYS)` and its `source` must
not be in `INVALID_CACHE_SOURCES`. -/
def cacheUsable (ttlDays now : ℤ) (c : CacheEntry) : Bool :=
  decide (c.fetched_at > now - ttlDays) && !(INVALID_CACHE_SOURCES.contains c.source)

/-- The task body itself; see `cacheUsable` for the guard. -/
def fetch_allegro_data_task (ttlDays now : ℤ) (pstatus : ProductStatus)
    (cache : Option CacheEntry) (raw : PyDict) : TaskOutcome :=
  let cacheHit : Bool :=
    match cache with
    | some c => cacheUsable ttlDays now c
    | Option.none => false
  if cacheHit then
    match cache with
    | some c =>
      { status := if c.not_found then ProductStatus.notFound else ProductStatus.done
        cache := some c
        fetched := false
        alerted := false }
    | Option.none =>
      { status := pstatus, cache := Option.none, fetched := false, alerted := false }
  else
    let result := mapAntibotResult raw now
    let new_status :=
      if result.error.truthy then ProductStatus.error
      else if result.not_found.truthy then ProductStatus.notFound
      else ProductStatus.done
    let alerted :=
      new_status = ProductStatus.error ∧ result.source = "failed" ∧
        result.error.truthy = true ∧ result.alert_sent = false
    { status := new_status
      cache := some
        { lowest_price := result.lowest_price
          sold_count := result.sold_count
          source := result.source
          fetched_at := result.fetched_at
          not_found := result.not_found.truthy }
      fetched := true
      alerted := decide alerted }

/-! ## The Selenium scraper (services/allegro_scraper.py lines 698-853)

One attempt of the retry loop is summarized by its classification outcome:
the listing wait timed out, the page matched the ban or captcha keyword
lists, the no-results signature matched, a price was parsed (from the
listing snapshot or the fallback extractors, both of which return a
`selenium_rotating` result of the same shape), the page loaded but no price
was parseable, a `TimeoutException` escaped, the Selenium endpoint was
unavailable, or some other exception escaped.  Exception texts are modelled
by fixed representative non-empty strings, since only their truthiness and
presence matter downstream. -/

/-- Classification of one attempt of the scraper loop. -/
inductive Attempt where
  | waitTimeout
  | ban
  | captcha
  | noResults
  | priceFound (price : ℤ) (sold : Option ℤ)
  | priceMissing
  | seleniumTimeout
  | infraDown
  | otherExc
deriving DecidableEq, Repr

/-- `MAX_ATTEMPTS = 3` (allegro_scraper.py line 70). -/
def MAX_ATTEMPTS : Nat := 3

/-- `BASE_BACKOFF_SECONDS = 2` (allegro_scraper.py line 71). -/
def BASE_BACKOFF_SECONDS : Nat := 2

/-- An attempt is transient when the loop records `last_error` and falls
through to the next iteration (timeouts, unparseable price, other
exceptions). -/
def Attempt.isTransient : Attempt → Bool
  | Attempt.waitTimeout => true
  | Attempt.priceMissing => true
  | Attempt.seleniumTimeout => true
  | Attempt.otherExc => true
  | _ => false

/-- `str(exc)` for the error recorded by a transient attempt or the
infrastructure failure.  `priceMissing` keeps the literal message of
allegro_scraper.py line 833. -/
def Attempt.errText : Attempt → String
  | Attempt.waitTimeout => "Timeout waiting for listing"
  | Attempt.priceMissing => "Price not found in Allegro listing HTML"
  | Attempt.seleniumTimeout => "Selenium timeout"
  | Attempt.infraDown => "Selenium endpoint unavailable"
  | _ => "Selenium exception"

/-- The result dict of one scraper call; absent dict keys are `none`/`false`
(`result.get(...)` on the task side applies defaults the same way). -/
structure ScrapeResult where
  lowest_price : Option ℤ
  sold_count : Option ℤ
  source : String
  not_found : Bool
  error : Option String
  alert_sent : Bool
deriving DecidableEq, Repr

/-- `_failure_response` (allegro_scraper.py lines 668-695): a `failed`
result whose alert fires exactly when an exception object is present. -/
def failureResponse (err : Option String) : ScrapeResult :=
  { lowest_price := Option.none
    sold_count := Option.none
    source := "failed"
    not_found := false
    error := err
    alert_sent := err.isSome }

/-- One scraper call together with its observable side effects. -/
structure ScrapeTrace where
  result : ScrapeResult
  attempts : Nat
  sleeps : List Nat
  alerts : List String
deriving DecidableEq, Repr

/-- The `for attempt in range(1, MAX_ATTEMPTS + 1)` loop of
`fetch_allegro_data` (allegro_scraper.py lines 715-853).  `env attempt`
classifies attempt number `attempt`; the first argument list holds the
attempt numbers still to run, `used` counts the attempts performed.  Ban
and captcha pages alert and return at once (lines 754-792); a no-results
page returns a `scrape`/not-found result (lines 794-802); a parsed price
returns a `selenium_rotating` result (lines 804-831);
`SeleniumEndpointUnavailable` returns `_failure_response` at once (lines
838-841).  Transient outcomes record `last_error` and move to the next
attempt, but their delays differ: the listing-wait timeout handler ends in
`continue` (line 747), which skips the trailing backoff entirely, while
the unparseable-price fall-through and the caught `TimeoutException` /
generic exceptions (lines 832-844) reach the backoff and sleep
`BASE_BACKOFF_SECONDS * attempt` when `attempt != MAX_ATTEMPTS` (lines
849-851).  An exhausted loop returns
`_failure_response(ean, last_error, ...)` (line 853). -/
def scrapeGo (env : Nat → Attempt) :
    List Nat → Option String → List Nat → List String → Nat → ScrapeTrace
  | [], lastErr, sleeps, alerts, used =>
    { result := failureResponse lastErr
      attempts := used
      sleeps := sleeps
      alerts := alerts ++ (if lastErr.isSome then ["allegro_scrape_failed"] else []) }
  | attempt :: rest, lastErr, sleeps, alerts, used =>
    match env attempt with
    | Attempt.ban =>
      { result :=
          { lowest_price := Option.none, sold_count := Option.none,
            source := "ban_detected", not_found := false, error := Option.none,
            alert_sent := true }
        attempts := used + 1
        sleeps := sleeps
        alerts := alerts ++ ["allegro_ban_detected"] }
    | Attempt.captcha =>
      { result :=
          { lowest_price := Option.none, sold_count := Option.none,
            source := "captcha_detected", not_found := false, error := Option.none,
            alert_sent := true }
        attempts := used + 1
        sleeps := sleeps
        alerts := alerts ++ ["allegro_captcha_detected"] }
    | Attempt.noResults =>
      { result :=
          { lowest_price := Option.none, sold_count := Option.none,
            source := "scrape", not_found := true, error := Option.none,
            alert_sent := false }
        attempts := used + 1
        sleeps := sleeps
        alerts := alerts }
    | Attempt.priceFound price sold =>
      { result :=
          { lowest_price := some price, sold_count := sold,
            source := "selenium_rotating", not_found := false, error := Option.none,
            alert_sent := false }
        attempts := used + 1
        sleeps := sleeps
        alerts := alerts }
    | Attempt.infraDown =>
      { result := failureResponse (some (Attempt.errText Attempt.infraDown))
        attempts := used + 1
        sleeps := sleeps
        alerts := alerts ++ ["allegro_scrape_failed"] }
    | Attempt.waitTimeout =>
      scrapeGo env rest (some (Attempt.errText Attempt.waitTimeout))
        sleeps
        alerts (used + 1)
    | Attempt.priceMissing =>
      scrapeGo env rest (some (Attempt.errText Attempt.priceMissing))
        (sleeps ++ (if attempt ≠ MAX_ATTEMPTS then [BASE_BACKOFF_SECONDS * attempt] else []))
        alerts (used + 1)
    | Attempt.seleniumTimeout =>
      scrapeGo env rest (some (Attempt.errText Attempt.seleniumTimeout))
        (sleeps ++ (if attempt ≠ MAX_ATTEMPTS then [BASE_BACKOFF_SECONDS * attempt] else []))
        alerts (used + 1)
    | Attempt.otherExc =>
      scrapeGo env rest (some (Attempt.errText Attempt.otherExc))
        (sleeps ++ (if attempt ≠ MAX_ATTEMPTS then [BASE_BACKOFF_SECONDS * attempt] else []))
        alerts (used + 1)

/-- `fetch_allegro_data` of the scraper (allegro_scraper.py lines 698-853):
run the loop over `range(1, MAX_ATTEMPTS + 1)`. -/
def runScrape (env : Nat → Attempt) : ScrapeTrace :=
  scrapeGo env (List.range' 1 MAX_ATTEMPTS) Option.none [] [] 0

/-- `agents_pool[(attempt - 1) % len(agents_pool)]` (allegro_scraper.py
lines 716-719): the pool index used by attempt number `attempt` for a pool
of size `poolLen`. -/
def identityIndex (attempt poolLen : Nat) : Nat := (attempt - 1) % poolLen

/-- The status mapping applied by the task to a lookup result (tasks.py
lines 491-499): a truthy error gives `error`, else `not_found` gives
`not_found`, else `done`. -/
def statusForScrapeResult (r : ScrapeResult) : ProductStatus :=
  if (match r.error with | some m => m ≠ "" | Option.none => False : Bool) then
    ProductStatus.error
  else if r.not_found then ProductStatus.notFound
  else ProductStatus.done

/-! ## The products listing (main.py lines 106-170)

For one product row the endpoint derives `profit_margin` and
`recommendation` from the product status, the purchase price, the cached
lowest price and the effective multiplier.  The Polish labels of the source
correspond to the labels of the spec: "opłacalny" = profitable,
"nieopłacalny" = unprofitable, "brak na Allegro" = not found on
marketplace, "błąd pobierania" = fetch error, "w trakcie..." = in
progress, "brak danych" = no data. -/

/-- `round(x, 2)` on exact rationals: round to the nearest multiple of
1/100 (Python rounds ties of binary floats to even; on the exact values
compared by the claims the distinction does not arise). -/
def round2 (q : ℚ) : ℚ := ((round (q * 100) : ℤ) : ℚ) / 100

/-- `job.multiplier if job.multiplier else config.PROFIT_MULTIPLIER`
(main.py line 126): a missing or zero (falsy) job multiplier falls back to
the configured default. -/
def effectiveMultiplier (jobMultiplier : Option ℚ) (configDefault : ℚ) : ℚ :=
  match jobMultiplier with
  | some m => if m = 0 then configDefault else m
  | Option.none => configDefault

/-- The per-product body of `list_products` (main.py lines 128-152),
returning `(profit_margin, recommendation)`. -/
def listProductRow (status : ProductStatus) (purchase_price : Option ℚ)
    (lowest_price : Option ℚ) (multiplier : ℚ) : Option ℚ × String :=
  match status, lowest_price, purchase_price with
  | ProductStatus.done, some lp, some pp =>
    if pp > 0 then
      let margin := round2 (lp / pp)
      (some margin, if margin ≥ multiplier then "opłacalny" else "nieopłacalny")
    else (Option.none, "opłacalny")
  | _, _, _ =>
    if status = ProductStatus.notFound then (Option.none, "brak na Allegro")
    else if status = ProductStatus.error then (Option.none, "błąd pobierania")
    else if status ∈ ACTIVE_STATUSES then (Option.none, "w trakcie...")
    else (Option.none, "brak danych")

/-! ## Claims about job finalization -/

/-- Helper: when every product status is terminal, no product is counted as
remaining. -/
theorem remaining_zero_of_terminal (products : List ProductStatus)
    (hterm : ∀ s ∈ products, s ∉ ACTIVE_STATUSES) :
    (products.filter (fun s => s ∈ ACTIVE_STATUSES)).length = 0 := by
  rw [List.length_eq_zero, List.filter_eq_nil_iff]
  intro a ha
  simpa using hterm a ha

/-- Helper: the closed form of `finalize_job_if_complete` once no product
is active. -/
theorem finalize_complete_eq (products : List ProductStatus) (job : JobRecord)
    (hrem : (products.filter (fun s => s ∈ ACTIVE_STATUSES)).length = 0) :
    finalize_job_if_complete products job =
      (if products.length = 0 then
        { status := JobStatus.error, notes := some "Brak produktów po przetwarzaniu." }
      else if (products.filter (fun s => s = ProductStatus.error)).length ≠ 0 ∧
          (products.filter (fun s => s = ProductStatus.error)).length = products.length then
        { status := JobStatus.error, notes := some "Wszystkie produkty zakończyły się błędem." }
      else
        { status := JobStatus.done
          notes :=
            if (products.filter (fun s => s = ProductStatus.error)).length ≠ 0 then
              some ("Zakończono z błędami: " ++
                toString (products.filter (fun s => s = ProductStatus.error)).length ++ "/" ++
                toString products.length ++ ".")
            else if (products.filter (fun s => s = ProductStatus.notFound)).length ≠ 0 ∧
                (products.filter (fun s => s = ProductStatus.notFound)).length =
                  products.length then
              some "Żaden produkt nie został znaleziony na Allegro."
            else if (products.filter (fun s => s = ProductStatus.notFound)).length ≠ 0 then
              some ("Zakończono. Nie znaleziono: " ++
                toString (products.filter (fun s => s = ProductStatus.notFound)).length ++
                "/" ++ toString products.length ++ ".")
            else Option.none }) := by
  unfold finalize_job_if_complete
  simp only [hrem, ne_eq, not_true_eq_false, if_false, ite_false, not_false_eq_true]

/-- C3: when `finalize_job_if_complete` runs with every owned product
terminal, a job with zero products becomes `error` with the no-products
note; a job whose products are all `error` becomes `error`; every other
job becomes `done`, with a note exactly when an error or not-found count
is nonzero. -/
theorem C3_finalize_outcome (products : List ProductStatus) (job : JobRecord)
    (hterm : ∀ s ∈ products, s ∉ ACTIVE_STATUSES) :
    (products = [] →
      finalize_job_if_complete products job =
        { status := JobStatus.error, notes := some "Brak produktów po przetwarzaniu." }) ∧
    (products ≠ [] →
      ((products.filter (fun s => s = ProductStatus.error)).length = products.length →
        (finalize_job_if_complete products job).status = JobStatus.error) ∧
      ((products.filter (fun s => s = ProductStatus.error)).length ≠ products.length →
        (finalize_job_if_complete products job).status = JobStatus.done ∧
        ((finalize_job_if_complete products job).notes = Option.none ↔
          (products.filter (fun s => s = ProductStatus.error)).length = 0 ∧
          (products.filter (fun s => s = ProductStatus.notFound)).length = 0))) := by
  have hrem := remaining_zero_of_terminal products hterm
  rw [finalize_complete_eq products job hrem]
  constructor
  · intro hnil
    subst hnil
    simp
  · intro hne
    have htot : products.length ≠ 0 := by
      simpa [List.length_eq_zero] using hne
    constructor
    · intro hall
      have herr0 : (products.filter (fun s => s = ProductStatus.error)).length ≠ 0 := by
        rw [hall]; exact htot
      simp [htot, herr0, hall]
    · intro hnall
      by_cases herr : (products.filter (fun s => s = ProductStatus.error)).length = 0
      · by_cases hnf : (products.filter (fun s => s = ProductStatus.notFound)).length = 0
        · simp [htot, herr, hnf, hnall]
        · by_cases hnfall :
            (products.filter (fun s => s = ProductStatus.notFound)).length = products.length
          · simp [htot, herr, hnf, hnall, hnfall]
          · simp [htot, herr, hnf, hnall, hnfall]
      · simp [htot, herr, hnall]

/-- Witness for C3 at a concrete job: one done and one not-found product. -/
theorem C3_finalize_outcome_witness :
    ([ProductStatus.done, ProductStatus.notFound] ≠ ([] : List ProductStatus)) ∧
    (([ProductStatus.done, ProductStatus.notFound].filter
        (fun s => s = ProductStatus.error)).length ≠
        [ProductStatus.done, ProductStatus.notFound].length) ∧
    ((finalize_job_if_complete [ProductStatus.done, ProductStatus.notFound]
        { status := JobStatus.processing, notes := Option.none }).status = JobStatus.done ∧
      ((finalize_job_if_complete [ProductStatus.done, ProductStatus.notFound]
        { status := JobStatus.processing, notes := Option.none }).notes = Option.none ↔
        (([ProductStatus.done, ProductStatus.notFound].filter
          (fun s => s = ProductStatus.error)).length = 0 ∧
        (([ProductStatus.done, ProductStatus.notFound].filter
          (fun s => s = ProductStatus.notFound)).length = 0)))) :=
  ⟨by decide, by decide,
    ((C3_finalize_outcome [ProductStatus.done, ProductStatus.notFound]
      { status := JobStatus.processing, notes := Option.none } (by decide)).2
      (by decide)).2 (by decide)⟩

/-- C4 counterexample: a job that reached the terminal state `error` (all
products in `error`) is moved to `done` by a later call after one product
was re-run into `done` — the source never consults the job status, so
finalization is not monotonic under product-state changes. -/
theorem C4_counterexample :
    (finalize_job_if_complete [ProductStatus.error, ProductStatus.error]
      { status := JobStatus.processing, notes := Option.none }).status = JobStatus.error ∧
    (finalize_job_if_complete [ProductStatus.done, ProductStatus.error]
      (finalize_job_if_complete [ProductStatus.error, ProductStatus.error]
        { status := JobStatus.processing, notes := Option.none })).status = JobStatus.done :=
  ⟨rfl, rfl⟩

/-- C4 amended: finalization is idempotent for a fixed product multiset —
once a job is terminal, any further call that sees the same product
statuses leaves the job record unchanged; only a later change to a
product's terminal status (a redelivered task) can alter the job. -/
theorem C4_finalize_idempotent (products : List ProductStatus) (job : JobRecord) :
    finalize_job_if_complete products (finalize_job_if_complete products job) =
      finalize_job_if_complete products job := by
  by_cases h : (products.filter (fun s => s ∈ ACTIVE_STATUSES)).length ≠ 0 <;>
    simp [finalize_job_if_complete, h]

/-! ## Claims about the cache gate of the task -/

/-- The usability guard in propositional form. -/
theorem cacheUsable_iff (ttlDays now : ℤ) (c : CacheEntry) :
    cacheUsable ttlDays now c = true ↔
      c.fetched_at > now - ttlDays ∧ c.source ∉ INVALID_CACHE_SOURCES := by
  simp [cacheUsable]

/-- C2: the task resolves a product from cache (no fresh lookup) exactly
when the cache row exists, `now - fetched_at` is below the TTL and the
recorded source is outside the invalid-for-reuse set; in that case the
cached `not_found` flag picks the terminal state and the cache row is left
unchanged.  In every other situation a fresh lookup runs. -/
theorem C2_cache_reuse_gate (ttlDays now : ℤ) (pstatus : ProductStatus)
    (cache : Option CacheEntry) (raw : PyDict) :
    ((fetch_allegro_data_task ttlDays now pstatus cache raw).fetched = false ↔
      ∃ c, cache = some c ∧ c.fetched_at > now - ttlDays ∧
        c.source ∉ INVALID_CACHE_SOURCES) ∧
    (∀ c, cache = some c → c.fetched_at > now - ttlDays →
      c.source ∉ INVALID_CACHE_SOURCES →
      fetch_allegro_data_task ttlDays now pstatus cache raw =
        { status := if c.not_found then ProductStatus.notFound else ProductStatus.done
          cache := some c
          fetched := false
          alerted := false }) := by
  match cache with
  | Option.none =>
    refine ⟨by simp [fetch_allegro_data_task], ?_⟩
    intro c hc
    simp at hc
  | some c =>
    by_cases hu : cacheUsable ttlDays now c = true
    · have hprop := (cacheUsable_iff ttlDays now c).mp hu
      refine ⟨?_, ?_⟩
      · simp only [fetch_allegro_data_task, hu, if_true]
        exact ⟨fun _ => ⟨c, rfl, hprop⟩, fun _ => trivial⟩
      · intro c' hc' hf hs
        have : c' = c := by injection hc'.symm
        subst this
        simp [fetch_allegro_data_task, hu]
    · have hcond := hu
      rw [cacheUsable_iff] at hcond
      refine ⟨?_, ?_⟩
      · simp only [fetch_allegro_data_task, hu]
        constructor
        · intro hfe
          simp [Bool.not_eq_true] at hu
          simp [hu] at hfe
        · rintro ⟨c', hc', hf, hs⟩
          have : c' = c := by injection hc'.symm
          subst this
          exact absurd ⟨hf, hs⟩ hcond
      · intro c' hc' hf hs
        have : c' = c := by injection hc'.symm
        subst this
        exact absurd ⟨hf, hs⟩ hcond

/-- Witness for C2: a fresh `antibot_exe` cache row with a price resolves
the product to `done` without a lookup. -/
theorem C2_cache_reuse_gate_witness :
    fetch_allegro_data_task 30 110 ProductStatus.queued
      (some { lowest_price := some 20, sold_count := some 5, source := "antibot_exe",
              fetched_at := 100, not_found := false }) [] =
      { status := ProductStatus.done
        cache := some { lowest_price := some 20, sold_count := some 5,
                        source := "antibot_exe", fetched_at := 100, not_found := false }
        fetched := false
        alerted := false } :=
  (C2_cache_reuse_gate 30 110 ProductStatus.queued
      (some { lowest_price := some 20, sold_count := some 5, source := "antibot_exe",
              fetched_at := 100, not_found := false }) []).2
    { lowest_price := some 20, sold_count := some 5, source := "antibot_exe",
      fetched_at := 100, not_found := false }
    rfl (by norm_num) (by decide)

/-- C1 (bug demonstration): an antibot run whose output contains no
parseable `Product detail: ` line (here: a run that crashed before writing
any output) ends the first product in `error`, yet writes a
cache row with `source = "antibot_exe"` and `not_found = True`; a second
task for the same EAN within the TTL then reports `not_found` from that
cache row, so a failed attempt does poison the cache into a false
not-found, contrary to the claim and to the stated intent of the
`INVALID_CACHE_SOURCES` guard (tasks.py lines 448-451). -/
theorem C1_failed_attempt_poisons_cache :
    (fetch_allegro_data_task 30 100 ProductStatus.processing Option.none
      (fetch_with_antibot "123" (SubprocOutcome.ran [])
        (fun _ => Option.none) 100)).status = ProductStatus.error ∧
    (fetch_allegro_data_task 30 110 ProductStatus.queued
      (fetch_allegro_data_task 30 100 ProductStatus.processing Option.none
        (fetch_with_antibot "123" (SubprocOutcome.ran [])
          (fun _ => Option.none) 100)).cache []).status = ProductStatus.notFound ∧
    (fetch_allegro_data_task 30 110 ProductStatus.queued
      (fetch_allegro_data_task 30 100 ProductStatus.processing Option.none
        (fetch_with_antibot "123" (SubprocOutcome.ran [])
          (fun _ => Option.none) 100)).cache []).fetched = false := by
  refine ⟨?_, ?_, ?_⟩ <;> decide

/-- C5 counterexample: a product already terminal in `error`, whose cache
row records the errored attempt (`source = "antibot_error"`), is not left
unchanged by a re-invocation — the task re-runs the lookup, moves the
product to `done` and overwrites the cache row. -/
theorem C5_counterexample :
    (fetch_allegro_data_task 30 110 ProductStatus.error
      (some { lowest_price := Option.none, sold_count := Option.none,
              source := "antibot_error", fetched_at := 100, not_found := true })
      [("ean", PyVal.str "123"), ("allegro_lowest_price", PyVal.num 20),
       ("sold_count", PyVal.num 5), ("last_checked_at", PyVal.num 110),
       ("source", PyVal.str "antibot_exe"), ("not_found", PyVal.bool false)]).status =
      ProductStatus.done ∧
    (fetch_allegro_data_task 30 110 ProductStatus.error
      (some { lowest_price := Option.none, sold_count := Option.none,
              source := "antibot_error", fetched_at := 100, not_found := true })
      [("ean", PyVal.str "123"), ("allegro_lowest_price", PyVal.num 20),
       ("sold_count", PyVal.num 5), ("last_checked_at", PyVal.num 110),
       ("source", PyVal.str "antibot_exe"), ("not_found", PyVal.bool false)]).fetched =
      true ∧
    (fetch_allegro_data_task 30 110 ProductStatus.error
      (some { lowest_price := Option.none, sold_count := Option.none,
              source := "antibot_error", fetched_at := 100, not_found := true })
      [("ean", PyVal.str "123"), ("allegro_lowest_price", PyVal.num 20),
       ("sold_count", PyVal.num 5), ("last_checked_at", PyVal.num 110),
       ("source", PyVal.str "antibot_exe"), ("not_found", PyVal.bool false)]).cache ≠
      some { lowest_price := Option.none, sold_count := Option.none,
             source := "antibot_error", fetched_at := 100, not_found := true } := by
  refine ⟨?_, ?_, ?_⟩ <;> decide

/-- C5 amended: re-invoking the task is a no-op exactly for a terminal
product that agrees with a fresh cache row whose source is reusable (the
state a first successful run leaves behind); the task never inspects the
product status, so a product in `error` — whose cache row, if any, has an
invalid source — triggers a fresh lookup that may change both state and
cache. -/
theorem C5_idempotent_on_valid_cache (ttlDays now2 : ℤ) (p : ProductStatus)
    (c : CacheEntry) (raw2 : PyDict)
    (hfresh : c.fetched_at > now2 - ttlDays)
    (hvalid : c.source ∉ INVALID_CACHE_SOURCES)
    (hp : p = (if c.not_found then ProductStatus.notFound else ProductStatus.done)) :
    fetch_allegro_data_task ttlDays now2 p (some c) raw2 =
      { status := p, cache := some c, fetched := false, alerted := false } := by
  have hu : cacheUsable ttlDays now2 c = true :=
    (cacheUsable_iff ttlDays now2 c).mpr ⟨hfresh, hvalid⟩
  subst hp
  simp [fetch_allegro_data_task, hu]

/-- Witness for the amended C5 at a concrete done product. -/
theorem C5_idempotent_on_valid_cache_witness :
    fetch_allegro_data_task 30 110 ProductStatus.done
      (some { lowest_price := some 20, sold_count := some 5, source := "antibot_exe",
              fetched_at := 100, not_found := false }) [] =
      { status := ProductStatus.done
        cache := some { lowest_price := some 20, sold_count := some 5,
                        source := "antibot_exe", fetched_at := 100, not_found := false }
        fetched := false
        alerted := false } :=
  C5_idempotent_on_valid_cache 30 110 ProductStatus.done
    { lowest_price := some 20, sold_count := some 5, source := "antibot_exe",
      fetched_at := 100, not_found := false } [] (by norm_num) (by decide) rfl

/-! ## Claims about the scraper retry loop -/

/-- The loop visits attempts `1, 2, 3`. -/
theorem attemptSchedule_eq : List.range' 1 MAX_ATTEMPTS = [1, 2, 3] := rfl

/-- Enumeration of the transient attempt outcomes. -/
theorem transient_cases (a : Attempt) (h : a.isTransient = true) :
    a = Attempt.waitTimeout ∨ a = Attempt.priceMissing ∨
      a = Attempt.seleniumTimeout ∨ a = Attempt.otherExc := by
  cases a <;> simp_all [Attempt.isTransient]

/-- C6: when every attempt of a call ends in a transient failure, the loop
performs exactly `MAX_ATTEMPTS = 3` attempts, returns the `failed`
(`transient_error`) result carrying the last error, and the task-side
status mapping turns that result into product state `error`. -/
theorem C6_retry_budget (env : Nat → Attempt)
    (h : ∀ i, 1 ≤ i → i ≤ MAX_ATTEMPTS → (env i).isTransient = true) :
    (runScrape env).attempts = MAX_ATTEMPTS ∧
    (runScrape env).result.source = "failed" ∧
    (runScrape env).result.error = some (Attempt.errText (env MAX_ATTEMPTS)) ∧
    statusForScrapeResult (runScrape env).result = ProductStatus.error := by
  have h1 := transient_cases (env 1) (h 1 (by norm_num) (by norm_num [MAX_ATTEMPTS]))
  have h2 := transient_cases (env 2) (h 2 (by norm_num) (by norm_num [MAX_ATTEMPTS]))
  have h3 := transient_cases (env 3) (h 3 (by norm_num) (by norm_num [MAX_ATTEMPTS]))
  unfold runScrape
  rw [attemptSchedule_eq]
  rcases h1 with e1 | e1 | e1 | e1 <;> rcases h2 with e2 | e2 | e2 | e2 <;>
    rcases h3 with e3 | e3 | e3 | e3 <;>
    simp [scrapeGo, e1, e2, e3, Attempt.errText, statusForScrapeResult,
      failureResponse, MAX_ATTEMPTS, BASE_BACKOFF_SECONDS]

/-- Witness for C6: a call whose three attempts all time out waiting for
the listing. -/
theorem C6_retry_budget_witness :
    (runScrape (fun _ => Attempt.waitTimeout)).attempts = MAX_ATTEMPTS ∧
    (runScrape (fun _ => Attempt.waitTimeout)).result.source = "failed" ∧
    (runScrape (fun _ => Attempt.waitTimeout)).result.error =
      some (Attempt.errText ((fun _ => Attempt.waitTimeout) MAX_ATTEMPTS)) ∧
    statusForScrapeResult (runScrape (fun _ => Attempt.waitTimeout)).result =
      ProductStatus.error :=
  C6_retry_budget (fun _ => Attempt.waitTimeout) (fun i _ _ => rfl)

/-- Consecutive attempts use distinct pool indices whenever the identity
pool has at least two entries. -/
theorem identityIndex_rotates (a L : Nat) (ha : 1 ≤ a) (hL : 2 ≤ L) :
    identityIndex (a + 1) L ≠ identityIndex a L := by
  unfold identityIndex
  obtain ⟨b, rfl⟩ : ∃ b, a = b + 1 := ⟨a - 1, by omega⟩
  simp only [Nat.add_sub_cancel]
  intro hEq
  have hmod : Nat.ModEq L (b + 1) b := hEq
  have hdvd : (L : ℤ) ∣ (b : ℤ) - ((b + 1 : ℕ) : ℤ) := hmod.dvd
  have hneg : (L : ℤ) ∣ -1 := by
    have : (b : ℤ) - ((b + 1 : ℕ) : ℤ) = -1 := by push_cast; ring
    rwa [this] at hdvd
  have hone : (L : ℤ) ∣ 1 := (dvd_neg).mp hneg
  have hle : (L : ℤ) ≤ 1 := Int.le_of_dvd (by norm_num) hone
  have : L ≤ 1 := by exact_mod_cast hle
  omega

/-- C7 counterexample: a run whose attempts all time out waiting for the
listing performs its retries with no delay at all — the `continue` at
allegro_scraper.py line 747 skips the backoff, so `sleeps = []` although
the claimed `base * 2 ^ attempt + jitter` delay is positive; and a run
whose attempts all fail to parse a price sleeps `[2, 4]`, whose first
delay `BASE_BACKOFF_SECONDS * 1 = 2` is below the
`BASE_BACKOFF_SECONDS * 2 ^ 1 = 4` floor of the claimed formula (any
jitter only adds).  Either way the delay is not exponential-with-jitter. -/
theorem C7_counterexample :
    (runScrape (fun _ => Attempt.waitTimeout)).attempts = MAX_ATTEMPTS ∧
    (runScrape (fun _ => Attempt.waitTimeout)).sleeps = ([] : List Nat) ∧
    (runScrape (fun _ => Attempt.priceMissing)).sleeps = [2, 4] ∧
    0 < BASE_BACKOFF_SECONDS * 2 ^ 1 ∧
    2 < BASE_BACKOFF_SECONDS * 2 ^ 1 := by
  refine ⟨rfl, rfl, rfl, ?_, ?_⟩ <;> norm_num [BASE_BACKOFF_SECONDS]

/-- C7 amended: in an all-transient run the inter-attempt delays are
exactly `BASE_BACKOFF_SECONDS * i` for each non-final attempt `i` whose
transient failure was not a listing-wait timeout — the listing-wait
timeout path retries immediately with no delay (its `continue` skips the
backoff), the other transient paths sleep the deterministic linear
`BASE_BACKOFF_SECONDS * i` with no jitter; and the retry uses the next
index of the pre-shuffled identity pool, a different entry from attempt
`a` whenever the pool holds at least two. -/
theorem C7_backoff_schedule (env : Nat → Attempt) (a L : Nat)
    (ha1 : 1 ≤ a) (hL : 2 ≤ L)
    (h : ∀ i, 1 ≤ i → i ≤ MAX_ATTEMPTS → (env i).isTransient = true) :
    (runScrape env).sleeps =
      ((List.range' 1 (MAX_ATTEMPTS - 1)).filter
        (fun i => env i ≠ Attempt.waitTimeout)).map
        (fun i => BASE_BACKOFF_SECONDS * i) ∧
    identityIndex (a + 1) L ≠ identityIndex a L := by
  refine ⟨?_, identityIndex_rotates a L ha1 hL⟩
  have h1 := transient_cases (env 1) (h 1 (by norm_num) (by norm_num [MAX_ATTEMPTS]))
  have h2 := transient_cases (env 2) (h 2 (by norm_num) (by norm_num [MAX_ATTEMPTS]))
  have h3 := transient_cases (env 3) (h 3 (by norm_num) (by norm_num [MAX_ATTEMPTS]))
  have hrng : List.range' 1 (MAX_ATTEMPTS - 1) = [1, 2] := rfl
  unfold runScrape
  rw [attemptSchedule_eq, hrng]
  rcases h1 with e1 | e1 | e1 | e1 <;> rcases h2 with e2 | e2 | e2 | e2 <;>
    rcases h3 with e3 | e3 | e3 | e3 <;>
    simp [scrapeGo, e1, e2, e3, MAX_ATTEMPTS, BASE_BACKOFF_SECONDS]

/-- Witness for the amended C7: attempt 1 times out waiting for the
listing (no backoff before attempt 2), attempt 2 finds no parseable price
(a 4 second backoff before attempt 3), attempt 3 times out; and attempt 2
uses a different pool index than attempt 1 in a pool of three
identities. -/
theorem C7_backoff_schedule_witness :
    (runScrape (fun i => if i = 2 then Attempt.priceMissing else Attempt.waitTimeout)).sleeps =
      ((List.range' 1 (MAX_ATTEMPTS - 1)).filter
        (fun i => (if i = 2 then Attempt.priceMissing else Attempt.waitTimeout) ≠
          Attempt.waitTimeout)).map (fun i => BASE_BACKOFF_SECONDS * i) ∧
    identityIndex (1 + 1) 3 ≠ identityIndex 1 3 :=
  C7_backoff_schedule (fun i => if i = 2 then Attempt.priceMissing else Attempt.waitTimeout)
    1 3 le_rfl (by norm_num)
    (by
      intro i hi1 hi2
      by_cases hc : i = 2
      · subst hc; rfl
      · simp [hc, Attempt.isTransient])

/-- C8: if the attempts before `k` were transient and attempt `k` hits a
ban or captcha page, the call alerts once for that outcome and returns it
immediately — exactly `k` attempts happen, regardless of remaining
budget. -/
theorem C8_ban_captcha_terminate (env : Nat → Attempt) (k : Nat)
    (hk1 : 1 ≤ k) (hk3 : k ≤ MAX_ATTEMPTS)
    (hpre : ∀ i, 1 ≤ i → i < k → (env i).isTransient = true)
    (hbc : env k = Attempt.ban ∨ env k = Attempt.captcha) :
    (runScrape env).attempts = k ∧
    (runScrape env).result.lowest_price = Option.none ∧
    (env k = Attempt.ban →
      (runScrape env).result.source = "ban_detected" ∧
      (runScrape env).alerts = ["allegro_ban_detected"]) ∧
    (env k = Attempt.captcha →
      (runScrape env).result.source = "captcha_detected" ∧
      (runScrape env).alerts = ["allegro_captcha_detected"]) := by
  have hk3' : k ≤ 3 := by simpa [MAX_ATTEMPTS] using hk3
  have hcase : k = 1 ∨ k = 2 ∨ k = 3 := by omega
  unfold runScrape
  rw [attemptSchedule_eq]
  rcases hcase with rfl | rfl | rfl
  · rcases hbc with e | e <;> simp [scrapeGo, e]
  · have h1 := transient_cases (env 1) (hpre 1 le_rfl (by norm_num))
    rcases h1 with e1 | e1 | e1 | e1 <;> rcases hbc with e | e <;>
      simp [scrapeGo, e1, e, MAX_ATTEMPTS, BASE_BACKOFF_SECONDS]
  · have h1 := transient_cases (env 1) (hpre 1 le_rfl (by norm_num))
    have h2 := transient_cases (env 2) (hpre 2 (by norm_num) (by norm_num))
    rcases h1 with e1 | e1 | e1 | e1 <;> rcases h2 with e2 | e2 | e2 | e2 <;>
      rcases hbc with e | e <;>
      simp [scrapeGo, e1, e2, e, MAX_ATTEMPTS, BASE_BACKOFF_SECONDS]

/-- Witness for C8: the first attempt times out and the second hits a ban
page; the call stops after two attempts with a single ban alert. -/
theorem C8_ban_captcha_terminate_witness :
    (runScrape (fun i => if i = 2 then Attempt.ban else Attempt.waitTimeout)).attempts = 2 ∧
    (runScrape (fun i => if i = 2 then Attempt.ban else Attempt.waitTimeout)).result.lowest_price =
      Option.none ∧
    ((fun i => if i = 2 then Attempt.ban else Attempt.waitTimeout) 2 = Attempt.ban →
      (runScrape (fun i => if i = 2 then Attempt.ban else Attempt.waitTimeout)).result.source =
        "ban_detected" ∧
      (runScrape (fun i => if i = 2 then Attempt.ban else Attempt.waitTimeout)).alerts =
        ["allegro_ban_detected"]) ∧
    ((fun i => if i = 2 then Attempt.ban else Attempt.waitTimeout) 2 = Attempt.captcha →
      (runScrape (fun i => if i = 2 then Attempt.ban else Attempt.waitTimeout)).result.source =
        "captcha_detected" ∧
      (runScrape (fun i => if i = 2 then Attempt.ban else Attempt.waitTimeout)).alerts =
        ["allegro_captcha_detected"]) :=
  C8_ban_captcha_terminate (fun i => if i = 2 then Attempt.ban else Attempt.waitTimeout) 2
    (by norm_num) (by norm_num [MAX_ATTEMPTS])
    (by intro i h1 h2; interval_cases i; rfl)
    (Or.inl rfl)

/-! ## Claims about the products listing -/

/-- C9 counterexample: a product in state `error` whose EAN has a cached
price (written by another job's lookup) has both prices present and a
positive purchase price, yet the listing reports no profit margin and the
recommendation "błąd pobierania" (fetch error) — the margin formula and
the profitable/unprofitable dichotomy apply only to products in state
`done`. -/
theorem C9_counterexample :
    (0 : ℚ) < 10 ∧
    listProductRow ProductStatus.error (some 10) (some 20) (3 / 2) =
      (Option.none, "błąd pobierania") ∧
    (Option.none : Option ℚ) ≠ some (round2 ((20 : ℚ) / 10)) := by
  refine ⟨by norm_num, rfl, by simp⟩

/-- C9 amended: for a product in state `done` with a cached lowest price
and a purchase price, a positive purchase price yields
`profit_margin = round(lowest/purchase, 2)` and recommendation
"opłacalny" (profitable) exactly when the margin reaches the multiplier,
"nieopłacalny" (unprofitable) otherwise; a non-positive purchase price
yields "opłacalny" by convention with no margin. -/
theorem C9_margin_recommendation (pp lp mult : ℚ) :
    (0 < pp →
      listProductRow ProductStatus.done (some pp) (some lp) mult =
        (some (round2 (lp / pp)),
          if round2 (lp / pp) ≥ mult then "opłacalny" else "nieopłacalny") ∧
      ((listProductRow ProductStatus.done (some pp) (some lp) mult).2 = "opłacalny" ↔
        round2 (lp / pp) ≥ mult)) ∧
    (pp ≤ 0 →
      listProductRow ProductStatus.done (some pp) (some lp) mult =
        (Option.none, "opłacalny")) := by
  constructor
  · intro hpp
    constructor
    · simp [listProductRow, hpp]
    · by_cases hm : round2 (lp / pp) ≥ mult <;> simp [listProductRow, hpp, hm]
  · intro hpp
    have hnot : ¬ pp > 0 := not_lt.mpr hpp
    simp [listProductRow, hnot]

/-- Witness for the amended C9: purchase 10, lowest 20, multiplier 1.5. -/
theorem C9_margin_recommendation_witness :
    listProductRow ProductStatus.done (some 10) (some 20) (3 / 2) =
      (some (round2 ((20 : ℚ) / 10)),
        if round2 ((20 : ℚ) / 10) ≥ (3 / 2 : ℚ) then "opłacalny" else "nieopłacalny") ∧
    ((listProductRow ProductStatus.done (some 10) (some 20) (3 / 2)).2 = "opłacalny" ↔
      round2 ((20 : ℚ) / 10) ≥ (3 / 2 : ℚ)) :=
  (C9_margin_recommendation 10 20 (3 / 2)).1 (by norm_num)

/-! ## Claims about antibot totality -/

/-- Key presence distributes over concatenation. -/
theorem PyDict.hasKey_append (d e : PyDict) (k : String) :
    PyDict.hasKey (d ++ e) k = (PyDict.hasKey d k || PyDict.hasKey e k) := by
  induction d with
  | nil => simp [PyDict.hasKey]
  | cons p d ih =>
    obtain ⟨k', v'⟩ := p
    by_cases h : (k == k') = true
    · simp [PyDict.hasKey, List.lookup, h]
    · simp only [List.cons_append, PyDict.hasKey, List.lookup, h]
      simpa [PyDict.hasKey] using ih

/-- `setdefault` guarantees its key. -/
theorem PyDict.hasKey_setdefault_self (d : PyDict) (k : String) (v : PyVal) :
    (d.setdefault k v).hasKey k = true := by
  unfold PyDict.setdefault
  by_cases h : PyDict.hasKey d k = true
  · rw [if_pos h]; exact h
  · rw [if_neg h, PyDict.hasKey_append]
    simp [PyDict.hasKey, List.lookup]

/-- `setdefault` preserves existing keys. -/
theorem PyDict.hasKey_setdefault_mono (d : PyDict) (k k' : String) (v : PyVal)
    (h : PyDict.hasKey d k' = true) :
    (d.setdefault k v).hasKey k' = true := by
  unfold PyDict.setdefault
  by_cases hk : PyDict.hasKey d k = true
  · rw [if_pos hk]; exact h
  · rw [if_neg hk, PyDict.hasKey_append, h]
    simp

/-- C10: `fetch_with_antibot` is total at its interface — for every EAN,
subprocess outcome and parse oracle it returns a dict (no branch
propagates an exception) carrying at least the keys `not_found`, `source`
and `last_checked_at`; and whenever the binary is missing, the subprocess
raises, or the output has no parseable `Product detail: ` line, the dict
has `not_found = True` and an `error` key. -/
theorem C10_antibot_total (ean : String) (sub : SubprocOutcome)
    (parse : String → Option ParsedVal) (now : ℤ) :
    (fetch_with_antibot ean sub parse now).hasKey "not_found" = true ∧
    (fetch_with_antibot ean sub parse now).hasKey "source" = true ∧
    (fetch_with_antibot ean sub parse now).hasKey "last_checked_at" = true ∧
    (sub = SubprocOutcome.fileNotFound →
      (fetch_with_antibot ean sub parse now).get "not_found" = PyVal.bool true ∧
      (fetch_with_antibot ean sub parse now).hasKey "error" = true) ∧
    (∀ msg, sub = SubprocOutcome.raised msg →
      (fetch_with_antibot ean sub parse now).get "not_found" = PyVal.bool true ∧
      (fetch_with_antibot ean sub parse now).hasKey "error" = true) ∧
    (∀ lines, sub = SubprocOutcome.ran lines →
      findProductDetail parse lines = Option.none →
      (fetch_with_antibot ean sub parse now).get "not_found" = PyVal.bool true ∧
      (fetch_with_antibot ean sub parse now).hasKey "error" = true) := by
  cases sub with
  | fileNotFound =>
    refine ⟨?_, ?_, ?_, ?_, ?_, ?_⟩ <;>
      simp [fetch_with_antibot, antibotExceptDict, PyDict.hasKey, PyDict.get,
        PyDict.getD, List.lookup]
  | raised msg =>
    refine ⟨?_, ?_, ?_, ?_, ?_, ?_⟩ <;>
      simp [fetch_with_antibot, antibotExceptDict, PyDict.hasKey, PyDict.get,
        PyDict.getD, List.lookup]
  | ran lines =>
    cases hfd : findProductDetail parse lines with
    | none =>
      refine ⟨?_, ?_, ?_, ?_, ?_, ?_⟩ <;>
        simp [fetch_with_antibot, hfd, antibotNoDetailDict, PyDict.hasKey,
          PyDict.get, PyDict.getD, List.lookup]
    | some v =>
      cases v with
      | pydict detail =>
        by_cases hne : detail = []
        · subst hne
          refine ⟨?_, ?_, ?_, ?_, ?_, ?_⟩ <;>
            simp [fetch_with_antibot, hfd, antibotNoDetailDict, PyDict.hasKey,
              PyDict.get, PyDict.getD, List.lookup]
        · have hkeys :
            fetch_with_antibot ean (SubprocOutcome.ran lines) parse now =
              ((((detail.setdefault "not_found" (PyVal.bool false)).setdefault
                  "source" (PyVal.str "antibot_exe")).setdefault
                  "last_checked_at" (PyVal.num now)).setdefault
                  "allegro_lowest_price" PyVal.none).setdefault
                  "sold_count" PyVal.none := by
            simp [fetch_with_antibot, hfd, hne]
          rw [hkeys]
          refine ⟨?_, ?_, ?_, ?_, ?_, ?_⟩
          · exact PyDict.hasKey_setdefault_mono _ _ _ _
              (PyDict.hasKey_setdefault_mono _ _ _ _
                (PyDict.hasKey_setdefault_mono _ _ _ _
                  (PyDict.hasKey_setdefault_mono _ _ _ _
                    (PyDict.hasKey_setdefault_self detail "not_found" (PyVal.bool false)))))
          · exact PyDict.hasKey_setdefault_mono _ _ _ _
              (PyDict.hasKey_setdefault_mono _ _ _ _
                (PyDict.hasKey_setdefault_mono _ _ _ _
                  (PyDict.hasKey_setdefault_self _ "source" (PyVal.str "antibot_exe"))))
          · exact PyDict.hasKey_setdefault_mono _ _ _ _
              (PyDict.hasKey_setdefault_mono _ _ _ _
                (PyDict.hasKey_setdefault_self _ "last_checked_at" (PyVal.num now)))
          · intro hcontra
            cases hcontra
          · intro msg hcontra
            cases hcontra
          · intro lines' heq hnone
            have : lines' = lines := by injection heq.symm
            subst this
            rw [hfd] at hnone
            cases hnone
      | truthyNonDict =>
        refine ⟨?_, ?_, ?_, ?_, ?_, ?_⟩ <;>
          simp [fetch_with_antibot, hfd, antibotExceptDict, PyDict.hasKey,
            PyDict.get, PyDict.getD, List.lookup]
      | falsyNonDict =>
        refine ⟨?_, ?_, ?_, ?_, ?_, ?_⟩ <;>
          simp [fetch_with_antibot, hfd, antibotNoDetailDict, PyDict.hasKey,
            PyDict.get, PyDict.getD, List.lookup]

/-- Witness for C10: the missing-binary case at a concrete EAN. -/
theorem C10_antibot_total_witness :
    (fetch_with_antibot "123" SubprocOutcome.fileNotFound
      (fun _ => Option.none) 0).hasKey "not_found" = true ∧
    (fetch_with_antibot "123" SubprocOutcome.fileNotFound
      (fun _ => Option.none) 0).hasKey "source" = true ∧
    (fetch_with_antibot "123" SubprocOutcome.fileNotFound
      (fun _ => Option.none) 0).hasKey "last_checked_at" = true ∧
    (fetch_with_antibot "123" SubprocOutcome.fileNotFound
      (fun _ => Option.none) 0).get "not_found" = PyVal.bool true ∧
    (fetch_with_antibot "123" SubprocOutcome.fileNotFound
      (fun _ => Option.none) 0).hasKey "error" = true := by
  have h := C10_antibot_total "123" SubprocOutcome.fileNotFound (fun _ => Option.none) 0
  exact ⟨h.1, h.2.1, h.2.2.1, (h.2.2.2.1 rfl).1, (h.2.2.2.1 rfl).2⟩
